import Mathlib

/-!
Verification of the wokwi_chips_api registration/dispatch layer.

This file shallowly embeds the watch/callback registries and the
cross-boundary dispatch trampolines of the repository:

* `src/pin.rs` — the id-keyed design: a global `CALLBACK_REGISTRY`
  (a vector of `PinListener { pin_id, callback }`), `Pin::watch`,
  `Pin::unwatch`, and the extern dispatch `pin_change_trampoline`.
* `src/gpio.rs` — the address-keyed design: each `GPIOPin` owns an
  `Option` callback slot, a global `PIN_REGISTRY` of pin addresses keeps
  the pins alive, and the extern dispatch resolves through the
  `user_data` pointer.
* `src/i2c.rs` — the bus-device design: an `I2CDeviceConfig` with four
  optional callback slots, four extern dispatch trampolines, and
  `create`, which registers the device with the host.

Callbacks are boxed opaque closures in the source (`Box<dyn FnMut …>`);
here the pin-level registries are parametrised by an abstract callback
payload type `κ`, and dispatch returns which payload was invoked with
which argument instead of running an effect. Host calls (`pinWatch`,
`pinWatchStop`, `i2cInit`) are modelled by boolean answers passed in by
the caller where the source uses the host's return value. Raw levels
(`u32`) and data bytes (`u8`) are modelled as `Nat`; no arithmetic is
performed on them, only the zero test the source performs.
-/

namespace Wokwi

/-- Binary signal domain shared by both pin modules (`PinValue` in
`src/pin.rs` and `src/gpio.rs`): `Low` and `High`. -/
inductive PinValue where
  | Low
  | High
deriving DecidableEq

/-- Logical negation on `PinValue`, from `impl std::ops::Not for PinValue`
in `src/pin.rs` / `src/gpio.rs`: `Low ↔ High`. -/
def PinValue.not : PinValue → PinValue
  | PinValue.Low => PinValue.High
  | PinValue.High => PinValue.Low

/-- Pin modes (`PinMode` in `src/pin.rs` / `src/gpio.rs`). The numeric
host constants are opaque and out of scope; only the seven variants
matter here. -/
inductive PinMode where
  | Input
  | Output
  | InputPullup
  | InputPulldown
  | Analog
  | OutputLow
  | OutputHigh
deriving DecidableEq

/-- Watch edges (`WatchEdge` in `src/pin.rs` / `src/gpio.rs`); the value
is forwarded to the host and never inspected by the plugin. -/
inductive WatchEdge where
  | Rising
  | Falling
  | Both
deriving DecidableEq

section IdKeyed

variable {κ : Type}

/-- One entry of the id-keyed registry: `PinListener` in `src/pin.rs`,
holding the watched pin's id and the boxed callback (payload `κ`). -/
structure PinListener (κ : Type) where
  pin_id : Nat
  callback : κ
deriving DecidableEq

/-- Dispatch boundary of the id-keyed design, `pin_change_trampoline` in
`src/pin.rs` (lines 63–83). The source scans `CALLBACK_REGISTRY` with
`iter_mut().find(|l| l.pin_id == pin_id)`; if no listener matches it
returns at once, otherwise it invokes the matched callback with
`Pin { id: pin_id }` and `if value == 0 { Low } else { High }`. The model
returns the registry after the call (the body performs no push/remove,
so it is returned unchanged) together with the invocation that happened:
`none` for the silent early return, `some (callback, value)` when a
callback was called. -/
def pin_change_trampoline (registry : List (PinListener κ)) (pin_id : Nat)
    (value : Nat) : List (PinListener κ) × Option (κ × PinValue) :=
  match registry.find? (fun listener => listener.pin_id == pin_id) with
  | none => (registry, none)
  | some listener =>
      (registry,
       some (listener.callback,
             if value == 0 then PinValue.Low else PinValue.High))

/-- `Pin::watch` in `src/pin.rs` (lines 127–145). The source builds a
`WatchConfig`, unconditionally pushes a `PinListener { pin_id: self.id,
callback }` onto `CALLBACK_REGISTRY`, then calls the host's `pinWatch`
and returns its result. `hostArm` stands for that host answer; note the
push happens before (and regardless of) the host call. `edge` is only
forwarded to the host inside the `WatchConfig`. -/
def Pin.watch (registry : List (PinListener κ)) (id : Nat) (edge : WatchEdge)
    (callback : κ) (hostArm : Bool) : List (PinListener κ) × Bool :=
  (registry ++ [{ pin_id := id, callback := callback }], hostArm)

/-- `Pin::unwatch` in `src/pin.rs` (lines 147–151). The entire body is
the host call `pinWatchStop(self.id)`; `CALLBACK_REGISTRY` is not
touched, so the registry after the call is the registry before it. -/
def Pin.unwatch (registry : List (PinListener κ)) (id : Nat) :
    List (PinListener κ) :=
  registry

end IdKeyed

section AddressKeyed

variable {κ : Type}

/-- `GPIOPin` in `src/gpio.rs`: host-assigned id, current mode, and the
single optional watch callback slot (`Option<Box<dyn FnMut(PinValue)>>`,
payload `κ` here). -/
structure GPIOPin (κ : Type) where
  id : Nat
  mode : PinMode
  watch_callback : Option κ
deriving DecidableEq

/-- Outcome of one address-keyed dispatch: either the trampoline
panicked (a Rust `unwrap()` of `None`, a fault crossing the extern
boundary) or it invoked the stored callback with the given value. -/
inductive GpioDispatch (κ : Type) where
  | panicked
  | invoked (callback : κ) (value : PinValue)
deriving DecidableEq

/-- Dispatch boundary of the address-keyed design,
`pin_change_trampoline` in `src/gpio.rs` (lines 58–65). The source casts
`user_data` back to `&mut GPIOPin` — the model takes the pointed-to pin
directly — and runs `pin.watch_callback.as_mut().unwrap()(…)`: when the
slot is `None` the `unwrap()` panics, otherwise the callback receives
`if value == 0 { Low } else { High }`. -/
def gpio_pin_change_trampoline (pin : GPIOPin κ) (value : Nat) :
    GpioDispatch κ :=
  match pin.watch_callback with
  | none => GpioDispatch.panicked
  | some callback =>
      GpioDispatch.invoked callback
        (if value == 0 then PinValue.Low else PinValue.High)

/-- State touched by the address-keyed watch operations: the pin object
itself, the pin object's address `addr` (the `&mut self` pointer that
the source hands to the host as `user_data` and stores in
`PIN_REGISTRY`), and the contents of the global `PIN_REGISTRY`
(`Vec<*mut GPIOPin>`, modelled as the list of stored addresses). -/
structure GpioWatchState (κ : Type) where
  pin : GPIOPin κ
  addr : Nat
  pin_registry : List Nat
deriving DecidableEq

/-- `GPIOPin::watch` in `src/gpio.rs` (lines 117–143). If
`watch_callback` is already `Some`, return `false` immediately (state
untouched). Otherwise store the new callback in the slot, call the
host's `pinWatch` (its answer is `hostArm`); when the host accepts, push
the pin's address onto `PIN_REGISTRY`; return the host's answer. The
slot assignment happens before the host call and is not rolled back when
the host refuses. `edge` is only forwarded to the host. -/
def GPIOPin.watch (s : GpioWatchState κ) (edge : WatchEdge) (callback : κ)
    (hostArm : Bool) : GpioWatchState κ × Bool :=
  if s.pin.watch_callback.isSome then (s, false)
  else
    let armed : GpioWatchState κ :=
      { s with pin := { s.pin with watch_callback := some callback } }
    if hostArm then
      ({ armed with pin_registry := armed.pin_registry ++ [s.addr] }, true)
    else (armed, false)

/-- `GPIOPin::unwatch` in `src/gpio.rs` (lines 145–157). If no callback
is stored, return. Otherwise call the host's `pinWatchStop` and remove
this pin's address from `PIN_REGISTRY` (`retain(|&p| p != self)`). The
`watch_callback` slot itself is never reset to `None`. -/
def GPIOPin.unwatch (s : GpioWatchState κ) : GpioWatchState κ :=
  if s.pin.watch_callback.isNone then s
  else { s with pin_registry := s.pin_registry.filter (fun a => a != s.addr) }

end AddressKeyed

section Bus

/-- `I2CDeviceConfig` in `src/i2c.rs` (lines 10–19): bus address, the
two owned pins (the source stores whole `GPIOPin`s but `create` only
uses their ids, kept here), and the four optional callback slots. The
slots are modelled as the functions they compute: connect takes the
address and the read/write flag and answers a `Bool`; read produces a
byte; write takes the byte and answers the acknowledgement `Bool`;
disconnect takes and returns nothing. -/
structure I2CDeviceConfig where
  address : Nat
  scl : Nat
  sda : Nat
  connect_callback : Option (Nat → Bool → Bool)
  read_callback : Option (Unit → Nat)
  write_callback : Option (Nat → Bool)
  disconnect_callback : Option (Unit → Unit)

/-- Bus connect dispatch, `i2c_connect_trampoline` in `src/i2c.rs`
(lines 25–32): if the device's connect slot is present, return the
slot's result on `(address, write)`; otherwise return `false`. -/
def i2c_connect_trampoline (device : I2CDeviceConfig) (address : Nat)
    (write : Bool) : Bool :=
  match device.connect_callback with
  | some callback => callback address write
  | none => false

/-- Bus read dispatch, `i2c_read_trampoline` in `src/i2c.rs` (lines
34–41): the read slot's result if present, else `0`. -/
def i2c_read_trampoline (device : I2CDeviceConfig) : Nat :=
  match device.read_callback with
  | some callback => callback ()
  | none => 0

/-- Bus write dispatch, `i2c_write_trampoline` in `src/i2c.rs` (lines
43–48). The extern function is declared with no return type, matching
the `Unit` codomain here: the source invokes the write slot as a bare
statement (`…unwrap()(data);`), so the boolean the slot computes is
dropped on the floor and nothing flows back to the host. -/
def i2c_write_trampoline (device : I2CDeviceConfig) (data : Nat) : Unit :=
  match device.write_callback with
  | some callback =>
      let _ack := callback data
      ()
  | none => ()

/-- Bus disconnect dispatch, `i2c_disconnect_trampoline` in
`src/i2c.rs` (lines 50–55): invoke the disconnect slot if present. -/
def i2c_disconnect_trampoline (device : I2CDeviceConfig) : Unit :=
  match device.disconnect_callback with
  | some callback => callback ()
  | none => ()

/-- Lifetime-relevant state of the bus registration path in
`src/i2c.rs`: the addresses stored in the global `I2C_CONFIG_REGISTRY`
(`Vec<*const I2CDeviceConfig>`), the `user_data` pointers handed to the
host through `i2cInit`, the addresses of `I2CDeviceConfig` values that
are still alive (owned by someone) after the operation, and a fresh
address counter. -/
structure I2CState where
  config_registry : List Nat
  host_user_data : List Nat
  live : List Nat
  next_addr : Nat
deriving DecidableEq

/-- Registration call `create` in `src/i2c.rs` (lines 89–106), together
with the Rust lifetime of its parameter. `create(config: I2CDeviceConfig)`
takes the config by value, so the config lives in `create`'s own stack
frame, at a fresh address `a`. The body passes `&config as *const _` to
the host as `user_data` inside the `I2CConfig` given to `i2cInit`, and
pushes `&config` onto `I2C_CONFIG_REGISTRY` — both store the address
`a`. When `create` returns, Rust drops the by-value parameter `config`
(nothing moves it out), ending its lifetime: `a` is therefore not in the
live set of the resulting state. -/
def create (s : I2CState) : I2CState :=
  let a := s.next_addr
  { config_registry := s.config_registry ++ [a]
    host_user_data := s.host_user_data ++ [a]
    live := s.live
    next_addr := a + 1 }

/-- A bus dispatch for a registered token dereferences the stored
`user_data` pointer (`&mut *(user_data as *mut I2CDeviceConfig)` in
every trampoline of `src/i2c.rs`); the dereference reaches the device's
callback slots only while the pointed-to config is still alive. -/
def dispatch_target_live (s : I2CState) (token : Nat) : Bool :=
  s.live.contains token

end Bus

/-- Sample address-keyed pin with an empty callback slot, as freshly
returned by `GPIOPin::new`. -/
def pin0 : GPIOPin Nat :=
  { id := 5, mode := PinMode.Input, watch_callback := none }

/-- Sample address-keyed watch state: the fresh pin `pin0` at address
100, with `PIN_REGISTRY` empty. -/
def gs0 : GpioWatchState Nat :=
  { pin := pin0, addr := 100, pin_registry := [] }

/-- Sample address-keyed watch state whose pin already carries a live
callback (payload 1): the state reached from `gs0` by a successful
watch. -/
def gsActive : GpioWatchState Nat :=
  { pin := { id := 5, mode := PinMode.Input, watch_callback := some 1 },
    addr := 100, pin_registry := [100] }

/-- Sample initial bus-registration state: both registries empty, no
live config, fresh addresses starting at 0. -/
def i2cs0 : I2CState :=
  { config_registry := [], host_user_data := [], live := [], next_addr := 0 }

/-- Sample bus device whose only populated slot is a write callback that
answers `false` (a NACK) for every byte. -/
def devNack : I2CDeviceConfig :=
  { address := 66, scl := 0, sda := 1, connect_callback := none,
    read_callback := none, write_callback := some (fun _ => false),
    disconnect_callback := none }

/-- Sample bus device with no callback slots populated at all. -/
def devEmpty : I2CDeviceConfig :=
  { address := 66, scl := 0, sda := 1, connect_callback := none,
    read_callback := none, write_callback := none,
    disconnect_callback := none }

/-- Sample bus device whose connect slot answers the read/write flag
back and whose write slot always acknowledges. -/
def devEcho : I2CDeviceConfig :=
  { address := 66, scl := 0, sda := 1,
    connect_callback := some (fun _ w => w),
    read_callback := none, write_callback := some (fun _ => true),
    disconnect_callback := none }

/-- C1 (amended): in the id-keyed design (pin.rs) a dispatch whose token
matches no registry entry returns immediately, leaving the registry
unchanged, invoking no callback and signalling no failure; in the
address-keyed design (gpio.rs) a dispatch whose callback slot is absent
does not return silently — the trampoline unwraps the slot and panics,
a fault propagated across the boundary. -/
theorem claim1_unmatched_dispatch (κ : Type) (registry : List (PinListener κ))
    (pin_id value : Nat) (p : GPIOPin κ)
    (hr : registry.find? (fun listener => listener.pin_id == pin_id) = none)
    (hp : p.watch_callback = none) :
    pin_change_trampoline registry pin_id value = (registry, none) ∧
    gpio_pin_change_trampoline p value = GpioDispatch.panicked := by
  constructor
  · unfold pin_change_trampoline
    rw [hr]
  · unfold gpio_pin_change_trampoline
    rw [hp]

/-- Witness for C1: the empty id-keyed registry has no entry for pin 3,
and the fresh pin `pin0` carries no callback; at these inputs the
id-keyed dispatch is silent and the address-keyed dispatch panics. -/
theorem claim1_unmatched_dispatch_witness :
    ([] : List (PinListener Nat)).find?
        (fun listener => listener.pin_id == 3) = none ∧
    pin0.watch_callback = none ∧
    pin_change_trampoline ([] : List (PinListener Nat)) 3 1 = ([], none) ∧
    gpio_pin_change_trampoline pin0 1 = GpioDispatch.panicked := by
  refine ⟨rfl, rfl, ?_, ?_⟩
  · exact (claim1_unmatched_dispatch Nat [] 3 1 pin0 rfl rfl).1
  · exact (claim1_unmatched_dispatch Nat [] 3 1 pin0 rfl rfl).2

/-- Counterexample to C1 as stated: the address-keyed dispatch boundary,
invoked for a pin whose identity resolves to no registered callback
(empty slot), does not return with no observable effect — it panics,
signalling a fault to the host. -/
theorem claim1_counterexample :
    gpio_pin_change_trampoline pin0 1 = GpioDispatch.panicked := rfl

/-- C2 (amended): the bus-connect dispatch returns false — not true —
when the device's connect slot is absent, and returns exactly the slot's
boolean result when the slot is present. -/
theorem claim2_connect_default (device : I2CDeviceConfig) (address : Nat)
    (write : Bool) (f : Nat → Bool → Bool) :
    (device.connect_callback = none →
      i2c_connect_trampoline device address write = false) ∧
    (device.connect_callback = some f →
      i2c_connect_trampoline device address write = f address write) := by
  constructor
  · intro h
    unfold i2c_connect_trampoline
    rw [h]
  · intro h
    unfold i2c_connect_trampoline
    rw [h]

/-- Witness for C2: a device with no connect slot is refused, and a
device whose connect slot echoes the read/write flag gets its slot's
result back. -/
theorem claim2_connect_default_witness :
    i2c_connect_trampoline devEmpty 66 true = false ∧
    i2c_connect_trampoline devEcho 66 true = true :=
  ⟨(claim2_connect_default devEmpty 66 true (fun _ w => w)).1 rfl,
   (claim2_connect_default devEcho 66 true (fun _ w => w)).2 rfl⟩

/-- Counterexample to C2 as stated: for a device whose connect slot is
absent, the connect dispatch does not answer the claimed default-accept
value true. -/
theorem claim2_counterexample :
    i2c_connect_trampoline devEmpty 66 true ≠ true := by
  decide

/-- C3 evaluated: the bus-write dispatch returns the unit value to the
host for every device and byte — its extern signature has no return
slot — even though a present write callback computes an acknowledgement
bit. At the failing input, the NACK device's slot computes false on byte
5, yet the host-visible result of the dispatch is the unit value: the
acknowledgement is discarded. -/
theorem claim3_ack_discarded :
    (∀ (device : I2CDeviceConfig) (data : Nat),
      i2c_write_trampoline device data = ()) ∧
    devNack.write_callback.map (fun callback => callback 5) = some false ∧
    i2c_write_trampoline devNack 5 = () :=
  ⟨fun _ _ => rfl, rfl, rfl⟩

/-- C4 evaluated at the failing input: arm a watch for pin 1 (callback 7,
host accepts), call unwatch, then dispatch for the same identity. In the
id-keyed design unwatch leaves `CALLBACK_REGISTRY` untouched, so the
stale dispatch still invokes callback 7; in the address-keyed design
unwatch never clears `watch_callback`, so the stale dispatch likewise
invokes callback 7. The claim requires no callback invocation. -/
theorem claim4_unwatch_stale_dispatch :
    (pin_change_trampoline
        (Pin.unwatch
          (Pin.watch ([] : List (PinListener Nat)) 1 WatchEdge.Both 7 true).1 1)
        1 1).2 = some (7, PinValue.High) ∧
    gpio_pin_change_trampoline
        (GPIOPin.unwatch (GPIOPin.watch gs0 WatchEdge.Both 7 true).1).pin 1 =
      GpioDispatch.invoked 7 PinValue.High := by
  constructor <;> rfl

/-- C5 (amended): on an address-keyed pin that already carries a live
callback, a second watch returns false, leaves the state unchanged, and
dispatch still invokes the original callback. On an id-keyed pin, watch
performs no exclusivity check — a second watch appends a second entry
and returns whatever the host answers — but dispatch still invokes the
originally registered callback, because resolution takes the first
matching entry. -/
theorem claim5_second_watch (κ : Type) (s : GpioWatchState κ) (c callback : κ)
    (edge : WatchEdge) (hostArm : Bool) (value : Nat)
    (registry : List (PinListener κ)) (id : Nat) (cb1 cb2 : κ)
    (e1 e2 : WatchEdge) (h1 h2 : Bool)
    (hs : s.pin.watch_callback = some c)
    (hreg : registry.find? (fun listener => listener.pin_id == id) = none) :
    (GPIOPin.watch s edge callback hostArm).2 = false ∧
    (GPIOPin.watch s edge callback hostArm).1 = s ∧
    gpio_pin_change_trampoline (GPIOPin.watch s edge callback hostArm).1.pin
        value =
      GpioDispatch.invoked c
        (if value == 0 then PinValue.Low else PinValue.High) ∧
    (pin_change_trampoline
        (Pin.watch (Pin.watch registry id e1 cb1 h1).1 id e2 cb2 h2).1
        id value).2 =
      some (cb1, if value == 0 then PinValue.Low else PinValue.High) := by
  have hsome : s.pin.watch_callback.isSome = true := by
    rw [hs]
    rfl
  refine ⟨?_, ?_, ?_, ?_⟩
  · simp [GPIOPin.watch, hsome]
  · simp [GPIOPin.watch, hsome]
  · simp [GPIOPin.watch, hsome, gpio_pin_change_trampoline, hs]
  · simp [Pin.watch, pin_change_trampoline, List.find?_append, hreg]

/-- Witness for C5: `gsActive` holds callback 1; a second watch with
callback 2 returns false, changes nothing, and dispatch invokes
callback 1. On the empty id-keyed registry, two watches for pin 1
(callbacks 10 then 20) leave dispatch invoking callback 10. -/
theorem claim5_second_watch_witness :
    gsActive.pin.watch_callback = some 1 ∧
    ([] : List (PinListener Nat)).find?
        (fun listener => listener.pin_id == 1) = none ∧
    (GPIOPin.watch gsActive WatchEdge.Both 2 true).2 = false ∧
    (GPIOPin.watch gsActive WatchEdge.Both 2 true).1 = gsActive ∧
    gpio_pin_change_trampoline
        (GPIOPin.watch gsActive WatchEdge.Both 2 true).1.pin 1 =
      GpioDispatch.invoked 1 PinValue.High ∧
    (pin_change_trampoline
        (Pin.watch
          (Pin.watch ([] : List (PinListener Nat)) 1 WatchEdge.Both 10 true).1
          1 WatchEdge.Both 20 true).1 1 1).2 = some (10, PinValue.High) := by
  have h := claim5_second_watch Nat gsActive 1 2 WatchEdge.Both true 1 [] 1
    10 20 WatchEdge.Both WatchEdge.Both true true rfl rfl
  exact ⟨rfl, rfl, h.1, h.2.1, h.2.2.1, h.2.2.2⟩

/-- Counterexample to C5 as stated: on the id-keyed design, with a host
that accepts the second arm request, the second watch call for pin 1
returns true, not the claimed false — the plugin makes no exclusivity
check of its own. -/
theorem claim5_counterexample :
    (Pin.watch
        (Pin.watch ([] : List (PinListener Nat)) 1 WatchEdge.Both 10 true).1
        1 WatchEdge.Both 20 true).2 = true := rfl

/-- C6 (amended): the at-most-one-live-callback-per-pin invariant is
enforced by the address-keyed design — when a callback is already
registered, watch returns false and the stored callback is unchanged —
but not by the id-keyed registry, whose watch appends an entry
unconditionally (before even consulting the host), growing the count of
entries for the pin's id by one on every call. -/
theorem claim6_registry_invariant (κ : Type) (s : GpioWatchState κ)
    (c callback : κ) (edge : WatchEdge) (hostArm : Bool)
    (registry : List (PinListener κ)) (id : Nat) (e : WatchEdge) (cb : κ)
    (h : Bool)
    (hs : s.pin.watch_callback = some c) :
    (GPIOPin.watch s edge callback hostArm).2 = false ∧
    (GPIOPin.watch s edge callback hostArm).1.pin.watch_callback = some c ∧
    (Pin.watch registry id e cb h).1.countP
        (fun listener => listener.pin_id == id) =
      registry.countP (fun listener => listener.pin_id == id) + 1 := by
  have hsome : s.pin.watch_callback.isSome = true := by
    rw [hs]
    rfl
  refine ⟨?_, ?_, ?_⟩
  · simp [GPIOPin.watch, hsome]
  · simp [GPIOPin.watch, hsome, hs]
  · simp [Pin.watch, List.countP_append, List.countP_cons]

/-- Witness for C6: `gsActive` holds callback 1, a further watch returns
false and keeps callback 1; one id-keyed watch on the empty registry
raises the entry count for pin 1 from 0 to 1. -/
theorem claim6_registry_invariant_witness :
    gsActive.pin.watch_callback = some 1 ∧
    (GPIOPin.watch gsActive WatchEdge.Both 2 true).2 = false ∧
    (GPIOPin.watch gsActive WatchEdge.Both 2 true).1.pin.watch_callback
      = some 1 ∧
    (Pin.watch ([] : List (PinListener Nat)) 1 WatchEdge.Both 10 true).1.countP
        (fun listener => listener.pin_id == 1) =
      ([] : List (PinListener Nat)).countP
        (fun listener => listener.pin_id == 1) + 1 := by
  have h := claim6_registry_invariant Nat gsActive 1 2 WatchEdge.Both true []
    1 WatchEdge.Both 10 true rfl
  exact ⟨rfl, h.1, h.2.1, h.2.2⟩

/-- Counterexample to C6 as stated: after the operation sequence
watch(pin 1, callback 10, host accepts); watch(pin 1, callback 20, host
refuses), the id-keyed registry holds two live entries for pin id 1 —
the invariant of at most one live entry per pin identity is violated,
and no failure signal from the plugin prevented the duplicate (the
second entry is pushed before the host is even consulted). -/
theorem claim6_counterexample :
    ((Pin.watch
        (Pin.watch ([] : List (PinListener Nat)) 1 WatchEdge.Both 10 true).1
        1 WatchEdge.Both 20 false).1.countP
      (fun listener => listener.pin_id == 1)) = 2 := rfl

/-- C7 evaluated at the failing input: starting from the fresh pin state
`gs0`, a watch with callback 3 that the host refuses returns false — but
a new registration has been made: the callback slot now holds callback 3
(the code stores it before asking the host and does not roll back), and
a later retry with callback 9 and a willing host still returns false.
The claim requires the registry state unchanged and a later retry able
to succeed. -/
theorem claim7_refusal_mutates :
    (GPIOPin.watch gs0 WatchEdge.Both 3 false).2 = false ∧
    (GPIOPin.watch gs0 WatchEdge.Both 3 false).1.pin.watch_callback
      = some 3 ∧
    (GPIOPin.watch (GPIOPin.watch gs0 WatchEdge.Both 3 false).1
        WatchEdge.Both 9 true).2 = false :=
  ⟨rfl, rfl, rfl⟩

/-- C8 evaluated at the failing input: a successful watch with
callback 1 (returns true), then unwatch, then a watch with callback 2
and a willing host. The claim requires the second watch to return true
and callback 2 to fire on dispatch; the code returns false — unwatch
never resets the callback slot — and dispatch still invokes
callback 1. -/
theorem claim8_rewatch_blocked :
    (GPIOPin.watch gs0 WatchEdge.Both 1 true).2 = true ∧
    (GPIOPin.watch
        (GPIOPin.unwatch (GPIOPin.watch gs0 WatchEdge.Both 1 true).1)
        WatchEdge.Both 2 true).2 = false ∧
    gpio_pin_change_trampoline
        (GPIOPin.watch
          (GPIOPin.unwatch (GPIOPin.watch gs0 WatchEdge.Both 1 true).1)
          WatchEdge.Both 2 true).1.pin 1 =
      GpioDispatch.invoked 1 PinValue.High :=
  ⟨rfl, rfl, rfl⟩

/-- C9 evaluated: running `create` from the empty bus state registers
the config's address (0) both in `I2C_CONFIG_REGISTRY` and as the host's
`user_data`, yet the config is not alive once `create` returns — the
by-value parameter is dropped — so a later bus dispatch for the
registered token does not reach a live device configuration. The claim
requires the configuration to remain alive for the remaining program
lifetime. -/
theorem claim9_config_dropped :
    (create i2cs0).config_registry = [0] ∧
    (create i2cs0).host_user_data = [0] ∧
    (create i2cs0).live = [] ∧
    dispatch_target_live (create i2cs0) 0 = false :=
  ⟨rfl, rfl, rfl, rfl⟩

/-- C10: when the id-keyed registry holds several entries for the same
pin id (entry `e` preceded by entries `l₁` none of which match its id,
followed by arbitrary entries `l₂`, which may match), dispatch for that
id invokes exactly one callback — that of `e`, the earliest-registered
matching entry — and returns the registry with every entry, duplicates
included, still in place. -/
theorem claim10_dispatch_earliest (κ : Type) (l₁ l₂ : List (PinListener κ))
    (e : PinListener κ) (value : Nat)
    (h : l₁.find? (fun listener => listener.pin_id == e.pin_id) = none) :
    pin_change_trampoline (l₁ ++ e :: l₂) e.pin_id value =
      (l₁ ++ e :: l₂,
       some (e.callback,
             if value == 0 then PinValue.Low else PinValue.High)) := by
  unfold pin_change_trampoline
  rw [List.find?_append, h, Option.none_or,
    List.find?_cons_of_pos _ (by simp)]

/-- Witness for C10: registry with an entry for pin 2 (callback 9), then
two entries for pin 1 (callbacks 10 and 20). Dispatch for pin 1 invokes
callback 10 — the earliest entry for that id — and returns the registry
intact. -/
theorem claim10_dispatch_earliest_witness :
    ([⟨2, 9⟩] : List (PinListener Nat)).find?
        (fun listener => listener.pin_id == 1) = none ∧
    pin_change_trampoline
        (([⟨2, 9⟩] : List (PinListener Nat)) ++
          (⟨1, 10⟩ : PinListener Nat) :: [⟨1, 20⟩]) 1 1 =
      (([⟨2, 9⟩] : List (PinListener Nat)) ++
          (⟨1, 10⟩ : PinListener Nat) :: [⟨1, 20⟩],
       some (10, PinValue.High)) := by
  refine ⟨rfl, ?_⟩
  exact claim10_dispatch_earliest Nat [⟨2, 9⟩] [⟨1, 20⟩] ⟨1, 10⟩ 1 rfl

end Wokwi
